import Mathlib

/-!
Verification of the webhook front end in `src/App.tsx` (frontend-n8n).

The development shallowly embeds the pure core of the application:

* a model of JavaScript JSON values (`Json`) together with `JSON.parse`
  (`jsonParse`) and `JSON.stringify(·, null, 2)` (`jsonStringifyOpt`);
* the helpers `formatJson`, `parseJsonSafely`, `extractIframeContent`;
* the webhook client `sendWebhookRequest`, with the HTTP response (or a
  network failure) supplied as an explicit argument;
* the component state (`AppState`) and the event handlers
  `handleRubricImport`, `handleGenerateRubric`, `handleGradeSubmission`
  and `handleUploadToSpreadsheet`, each returning the successor state
  together with the list of webhook requests issued.

Modelling conventions, noted where they matter:

* JSON numbers are restricted to integers (`Int`); inputs containing a
  fraction or an exponent are rejected by the modelled parser.  No claim
  under verification involves non-integer numbers.
* `JSON.stringify` can fail in JavaScript (cyclic values, BigInt).  The
  model includes a `Json.bigint` constructor so that the failure branch of
  `formatJson` is exercisable; parsing never produces it.
* `\uXXXX` escapes denoting lone UTF-16 surrogates are mapped to `'\0'`
  (Lean characters are Unicode scalar values).
* JavaScript truthiness is modelled by `truthy`: `null`, `false`, `0` and
  `""` are falsy, everything else truthy.
-/

/-- JavaScript values that can flow through `JSON.parse` / `JSON.stringify`
in the program.  `bigint` is never produced by parsing; it exists to model
the one kind of value on which `JSON.stringify` fails. -/
inductive Json where
  | null : Json
  | bool (b : Bool) : Json
  | num (n : Int) : Json
  | str (s : String) : Json
  | arr (elems : List Json) : Json
  | obj (fields : List (String × Json)) : Json
  | bigint (n : Int) : Json

/-- JavaScript truthiness of a `Json` value. -/
def truthy : Json → Bool
  | .null => false
  | .bool b => b
  | .num n => n != 0
  | .str s => s != ""
  | .arr _ => true
  | .obj _ => true
  | .bigint n => n != 0

/-- JavaScript object-property assignment: overwrite the value in place if
the key exists, otherwise append.  Used for duplicate keys in `JSON.parse`. -/
def assignField (fs : List (String × Json)) (k : String) (v : Json) :
    List (String × Json) :=
  match fs with
  | [] => [(k, v)]
  | (k', v') :: rest =>
      if k' = k then (k', v) :: rest else (k', v') :: assignField rest k v

/-- JSON whitespace (as accepted by `JSON.parse`). -/
def isWsChar (c : Char) : Bool :=
  c = ' ' || c = '\t' || c = '\n' || c = '\r'

/-- Skip JSON whitespace. -/
def skipWs (cs : List Char) : List Char := cs.dropWhile isWsChar

/-- ASCII digit test. -/
def isDigitCh (c : Char) : Bool := 48 ≤ c.toNat && c.toNat ≤ 57

/-- Value of a hexadecimal digit. -/
def hexVal (c : Char) : Option Nat :=
  if 48 ≤ c.toNat ∧ c.toNat ≤ 57 then some (c.toNat - 48)
  else if 97 ≤ c.toNat ∧ c.toNat ≤ 102 then some (c.toNat - 87)
  else if 65 ≤ c.toNat ∧ c.toNat ≤ 70 then some (c.toNat - 55)
  else none

/-- Body of a JSON string literal, after the opening quote.  Returns the
decoded characters and the input remaining after the closing quote. -/
def parseStringBody : List Char → Option (List Char × List Char)
  | [] => none
  | '"' :: rest => some ([], rest)
  | '\\' :: 'u' :: h1 :: h2 :: h3 :: h4 :: rest => do
      let a ← hexVal h1
      let b ← hexVal h2
      let c ← hexVal h3
      let d ← hexVal h4
      let (cs, r) ← parseStringBody rest
      pure (Char.ofNat (((a * 16 + b) * 16 + c) * 16 + d) :: cs, r)
  | '\\' :: e :: rest => do
      let c ←
        if e = '"' then some '"'
        else if e = '\\' then some '\\'
        else if e = '/' then some '/'
        else if e = 'b' then some '\x08'
        else if e = 'f' then some '\x0c'
        else if e = 'n' then some '\n'
        else if e = 'r' then some '\r'
        else if e = 't' then some '\t'
        else none
      let (cs, r) ← parseStringBody rest
      pure (c :: cs, r)
  | c :: rest =>
      if c.toNat < 32 then none
      else do
        let (cs, r) ← parseStringBody rest
        pure (c :: cs, r)

/-- Decimal value of a digit list. -/
def digitsToNat (cs : List Char) : Nat :=
  cs.foldl (fun acc c => acc * 10 + (c.toNat - 48)) 0

/-- JSON number at the head of the input.  Model restriction: fractions and
exponents are rejected (JSON numbers are modelled as integers). -/
def parseNumber (cs : List Char) : Option (Int × List Char) :=
  let (neg, cs₁) :=
    match cs with
    | '-' :: rest => (true, rest)
    | rest => (false, rest)
  match cs₁ with
  | '0' :: rest =>
      match rest with
      | c :: _ =>
          if isDigitCh c ∨ c = '.' ∨ c = 'e' ∨ c = 'E' then none
          else some (0, rest)
      | [] => some (0, [])
  | c :: _ =>
      if isDigitCh c ∧ c ≠ '0' then
        let digs := cs₁.takeWhile isDigitCh
        let rest := cs₁.dropWhile isDigitCh
        match rest with
        | c' :: _ =>
            if c' = '.' ∨ c' = 'e' ∨ c' = 'E' then none
            else some (if neg then -(digitsToNat digs : Int) else digitsToNat digs, rest)
        | [] => some (if neg then -(digitsToNat digs : Int) else digitsToNat digs, [])
      else none
  | [] => none

mutual

/-- JSON value at the head of the input (fuel-indexed recursive descent). -/
def parseVal : Nat → List Char → Option (Json × List Char)
  | 0, _ => none
  | Nat.succ fuel, cs =>
      match skipWs cs with
      | 'n' :: 'u' :: 'l' :: 'l' :: rest => some (.null, rest)
      | 't' :: 'r' :: 'u' :: 'e' :: rest => some (.bool true, rest)
      | 'f' :: 'a' :: 'l' :: 's' :: 'e' :: rest => some (.bool false, rest)
      | '"' :: rest =>
          match parseStringBody rest with
          | some (cs', r) => some (.str cs'.asString, r)
          | none => none
      | '[' :: rest =>
          match skipWs rest with
          | ']' :: r₂ => some (.arr [], r₂)
          | r₂ =>
              match parseItems fuel r₂ with
              | some (items, r₃) => some (.arr items, r₃)
              | none => none
      | '{' :: rest =>
          match skipWs rest with
          | '}' :: r₂ => some (.obj [], r₂)
          | r₂ =>
              match parseFields fuel r₂ [] with
              | some (fs, r₃) => some (.obj fs, r₃)
              | none => none
      | c :: rest =>
          if c = '-' ∨ isDigitCh c then
            match parseNumber (c :: rest) with
            | some (n, r) => some (.num n, r)
            | none => none
          else none
      | [] => none

/-- Non-empty array element list, up to and including the closing bracket. -/
def parseItems : Nat → List Char → Option (List Json × List Char)
  | 0, _ => none
  | Nat.succ fuel, cs =>
      match parseVal fuel cs with
      | none => none
      | some (v, rest) =>
          match skipWs rest with
          | ',' :: r₂ =>
              match parseItems fuel r₂ with
              | some (vs, r₃) => some (v :: vs, r₃)
              | none => none
          | ']' :: r₂ => some ([v], r₂)
          | _ => none

/-- Non-empty object member list, up to and including the closing brace.
Duplicate keys follow JavaScript assignment semantics via `assignField`. -/
def parseFields : Nat → List Char → List (String × Json) →
    Option (List (String × Json) × List Char)
  | 0, _, _ => none
  | Nat.succ fuel, cs, acc =>
      match skipWs cs with
      | '"' :: rest =>
          match parseStringBody rest with
          | none => none
          | some (kcs, r₂) =>
              match skipWs r₂ with
              | ':' :: r₃ =>
                  match parseVal fuel r₃ with
                  | none => none
                  | some (v, r₄) =>
                      match skipWs r₄ with
                      | ',' :: r₅ => parseFields fuel r₅ (assignField acc kcs.asString v)
                      | '}' :: r₅ => some (assignField acc kcs.asString v, r₅)
                      | _ => none
              | _ => none
      | _ => none

end

/-- Model of `JSON.parse`: `some` on success, `none` when `JSON.parse`
throws. -/
def jsonParse (t : String) : Option Json :=
  let cs := t.toList
  match parseVal (cs.length * 2 + 4) cs with
  | some (v, rest) => if skipWs rest = [] then some v else none
  | none => none

/-- Function `parseJsonSafely` from the source: `JSON.parse` wrapped in try/catch,
returning JavaScript `null` on failure. -/
def parseJsonSafely (text : String) : Json :=
  (jsonParse text).getD .null

/-- Escape of one character inside a `JSON.stringify` string literal. -/
def escChar (c : Char) : String :=
  if c = '"' then "\\\""
  else if c = '\\' then "\\\\"
  else if c = '\n' then "\\n"
  else if c = '\r' then "\\r"
  else if c = '\t' then "\\t"
  else if c.toNat = 8 then "\\b"
  else if c.toNat = 12 then "\\f"
  else if c.toNat < 32 then
    "\\u00" ++ String.singleton (Char.ofNat (if c.toNat / 16 < 10 then 48 + c.toNat / 16 else 87 + c.toNat / 16))
      ++ String.singleton (Char.ofNat (if c.toNat % 16 < 10 then 48 + c.toNat % 16 else 87 + c.toNat % 16))
  else String.singleton c

/-- Quoting of a string as done by `JSON.stringify`. -/
def quoteStr (s : String) : String :=
  "\"" ++ String.join (s.toList.map escChar) ++ "\""

/-- Two spaces of indentation per depth level (the `2` in
`JSON.stringify(value, null, 2)`). -/
def indentStr (d : Nat) : String := String.join (List.replicate d "  ")

mutual

/-- Rendering of `JSON.stringify(·, null, 2)` at nesting depth `d`; `none` models a
thrown `TypeError` (BigInt anywhere in the value). -/
def strVal (d : Nat) : Json → Option String
  | .null => some "null"
  | .bool true => some "true"
  | .bool false => some "false"
  | .num n => some (toString n)
  | .str s => some (quoteStr s)
  | .bigint _ => none
  | .arr [] => some "[]"
  | .arr (x :: xs) => do
      let s₀ ← strVal (d + 1) x
      let rest ← strList (d + 1) xs
      pure ("[\n" ++
        String.intercalate ",\n" ((s₀ :: rest).map (fun it => indentStr (d + 1) ++ it)) ++
        "\n" ++ indentStr d ++ "]")
  | .obj [] => some "\x7b\x7d"
  | .obj ((k, v) :: fs) => do
      let s₀ ← strVal (d + 1) v
      let rest ← strFields (d + 1) fs
      pure ("\x7b\n" ++
        String.intercalate ",\n"
          (((quoteStr k ++ ": " ++ s₀) :: rest).map (fun it => indentStr (d + 1) ++ it)) ++
        "\n" ++ indentStr d ++ "\x7d")

/-- Rendered array elements. -/
def strList (d : Nat) : List Json → Option (List String)
  | [] => some []
  | x :: xs => do
      let s ← strVal d x
      let r ← strList d xs
      pure (s :: r)

/-- Rendered object members (`"key": value`). -/
def strFields (d : Nat) : List (String × Json) → Option (List String)
  | [] => some []
  | (k, v) :: fs => do
      let s ← strVal d v
      let r ← strFields d fs
      pure ((quoteStr k ++ ": " ++ s) :: r)

end

/-- Model of `JSON.stringify(value, null, 2)` as used throughout the source;
`none` models the thrown exception. -/
def jsonStringifyOpt (v : Json) : Option String := strVal 0 v

/-- Function `formatJson` from the source: `JSON.stringify(value, null, 2)` in a
try/catch whose handler returns the value itself when it is a string and
the empty string otherwise. -/
def formatJson (v : Json) : String :=
  match jsonStringifyOpt v with
  | some s => s
  | none =>
      match v with
      | .str t => t
      | _ => ""

/-- Worker for `replaceAllList`.  The `Nat` argument counts characters of
an already-emitted match still to be skipped, which keeps the recursion
structural on the input list. -/
def replaceAllAux (pat rep : List Char) : Nat → List Char → List Char
  | _, [] => []
  | Nat.succ n, _ :: cs => replaceAllAux pat rep n cs
  | 0, c :: cs =>
      if pat ≠ [] ∧ pat.isPrefixOf (c :: cs) then
        rep ++ replaceAllAux pat rep (pat.length - 1) cs
      else
        c :: replaceAllAux pat rep 0 cs

/-- Global (leftmost, non-overlapping) replacement of a literal character
sequence, as performed by `String.prototype.replace` with a `/.../g`
pattern consisting only of literal characters. -/
def replaceAllList (pat rep : List Char) (l : List Char) : List Char :=
  replaceAllAux pat rep 0 l

/-- Strip a (lowercase) literal from the input, comparing case-insensitively
(the `/i` flag of the iframe pattern). -/
def stripCi : List Char → List Char → Option (List Char)
  | [], cs => some cs
  | _ :: _, [] => none
  | p :: ps, c :: cs => if c.toLower = p then stripCi ps cs else none

/-- Match `srcdoc=["']([^"']*)["'][^>]*>` at the head of the input,
returning the capture.  The greedy sub-patterns here are deterministic: the
capture necessarily ends at the first quote character, and `[^>]*>` succeeds
exactly when a `>` occurs in the remaining input. -/
def srcdocTail (cs : List Char) : Option (List Char) :=
  match stripCi "srcdoc=".toList cs with
  | none => none
  | some cs₁ =>
      match cs₁ with
      | q :: cs₂ =>
          if q = '"' ∨ q = '\'' then
            let cap := cs₂.takeWhile (fun c => c ≠ '"' && c ≠ '\'')
            let rest := cs₂.dropWhile (fun c => c ≠ '"' && c ≠ '\'')
            match rest with
            | _ :: cs₃ => if cs₃.contains '>' then some cap else none
            | [] => none
          else none
      | [] => none

/-- Backtracking of the greedy `[^>]*` between `<iframe` and `srcdoc=`: try
the longest admissible gap first (`drop i` for `i` descending), mirroring
the JavaScript engine's preference order. -/
def greedyTail (cs : List Char) : Nat → Option (List Char)
  | 0 => srcdocTail cs
  | Nat.succ i =>
      match srcdocTail (cs.drop (Nat.succ i)) with
      | some cap => some cap
      | none => greedyTail cs i

/-- Match `/<iframe[^>]*srcdoc=["']([^"']*)["'][^>]*>/i` at the head of the
input, returning the capture group. -/
def matchIframeAt (cs : List Char) : Option (List Char) :=
  match stripCi "<iframe".toList cs with
  | none => none
  | some cs₁ => greedyTail cs₁ (cs₁.takeWhile (· ≠ '>')).length

/-- Model of `String.prototype.match` with the iframe pattern: first match in
left-to-right scan order, returning the capture group. -/
def iframeSearch : List Char → Option (List Char)
  | [] => none
  | c :: cs =>
      match matchIframeAt (c :: cs) with
      | some cap => some cap
      | none => iframeSearch cs

/-- Function `extractIframeContent` from the source: if the iframe pattern matches
with a truthy (non-empty) capture, decode the four HTML entities in source
order and then literal `\n` sequences; otherwise apply only the literal
`\n` conversion to the whole input. -/
def extractIframeContent (text : String) : String :=
  match iframeSearch text.toList with
  | some cap =>
      if cap ≠ [] then
        let c₁ := replaceAllList "&quot;".toList ['"'] cap
        let c₂ := replaceAllList "&lt;".toList ['<'] c₁
        let c₃ := replaceAllList "&gt;".toList ['>'] c₂
        let c₄ := replaceAllList "&amp;".toList ['&'] c₃
        (replaceAllList ['\\', 'n'] ['\n'] c₄).asString
      else
        (replaceAllList ['\\', 'n'] ['\n'] text.toList).asString
  | none => (replaceAllList ['\\', 'n'] ['\n'] text.toList).asString

/-- An HTTP response as observed by the client: status, status text and the
body read as text. -/
structure HttpResponse where
  status : Nat
  statusText : String
  bodyText : String
deriving DecidableEq

/-- Property `Response.ok` of the Fetch API: status in the range 200–299. -/
def respOk (r : HttpResponse) : Bool := 200 ≤ r.status && r.status ≤ 299

/-- Outcome of `fetch`: either a response (any status) or a rejected
promise (network failure), carrying the error message. -/
inductive FetchOutcome where
  | response (r : HttpResponse)
  | networkError (message : String)

/-- The `WebhookError` record of the source. -/
structure WebhookError where
  message : String
  details : Option String
deriving DecidableEq

/-- Function `sendWebhookRequest` from the source, as a function of the fetch
outcome.  On a non-success status it throws a `WebhookError` whose
`details` is the pretty-printed body when the body parses to a truthy JSON
value and the raw body otherwise; on success it returns the parsed JSON
value unless that value is `null` (the `??` operator), in which case the
raw body text is returned. -/
def sendWebhookRequest (net : FetchOutcome) : Except WebhookError Json :=
  match net with
  | .networkError m => .error { message := m, details := none }
  | .response r =>
      if respOk r then
        match parseJsonSafely r.bodyText with
        | .null => .ok (.str r.bodyText)
        | v => .ok v
      else
        .error {
          message := "Error " ++ toString r.status ++ ": " ++
            (if r.statusText = "" then "al invocar el webhook" else r.statusText),
          details := some
            (if truthy (parseJsonSafely r.bodyText) then
              formatJson (parseJsonSafely r.bodyText)
            else r.bodyText) }

/-- A file selected by the user: name and contents (as text). -/
structure FileData where
  name : String
  content : String
deriving DecidableEq

/-- One entry appended to a `FormData` body. -/
inductive FormValue where
  | text (value : String)
  | file (f : FileData)
  | blob (content : String) (filename : String) (mime : String)
deriving DecidableEq

/-- One webhook request issued by a handler: target URL and multipart
form fields in append order. -/
structure WebhookCall where
  url : String
  fields : List (String × FormValue)
deriving DecidableEq

/-- Provenance of the current rubric (`RubricSource` in the source). -/
inductive RubricSource where
  | generada
  | importada
  | preestablecida
deriving DecidableEq

/-- The environment-derived configuration read at the top of `App`. -/
structure Env where
  rubricWebhookUrl : String
  gradingWebhookUrl : String
  spreadsheetWebhookUrl : String
deriving DecidableEq

/-- The `useState` cells of `App` that the workflow actions read or write.
The academic-context selection state (university / course / preset) is
driven by separate UI handlers outside the claims and is omitted. -/
structure AppState where
  rubricPdf : Option FileData
  rubricJson : String
  rubricSource : Option RubricSource
  submissionFile : Option FileData
  isGeneratingRubric : Bool
  isGrading : Bool
  gradingResponse : Option Json
  rubricError : Option WebhookError
  gradingError : Option WebhookError
  spreadsheetUrl : String
  spreadsheetSheetName : String
  spreadsheetStudentName : String
  spreadsheetGrade : String
  spreadsheetSummaryByCriteria : String
  spreadsheetStrengths : String
  spreadsheetRecommendations : String
  isUploadingSpreadsheet : Bool
  spreadsheetResponse : Option Json
  spreadsheetError : Option WebhookError

/-- The initial state of every `useState` cell. -/
def initialState : AppState where
  rubricPdf := none
  rubricJson := ""
  rubricSource := none
  submissionFile := none
  isGeneratingRubric := false
  isGrading := false
  gradingResponse := none
  rubricError := none
  gradingError := none
  spreadsheetUrl := ""
  spreadsheetSheetName := ""
  spreadsheetStudentName := ""
  spreadsheetGrade := ""
  spreadsheetSummaryByCriteria := ""
  spreadsheetStrengths := ""
  spreadsheetRecommendations := ""
  isUploadingSpreadsheet := false
  spreadsheetResponse := none
  spreadsheetError := none

/-- JavaScript whitespace trimming (`String.prototype.trim`). -/
def isJsWsChar (c : Char) : Bool :=
  c = ' ' || c = '\t' || c = '\n' || c = '\r' || c = '\x0b' || c = '\x0c' ||
  c.toNat = 160 || c.toNat = 65279

/-- Model of `text.trim()`. -/
def jsTrim (s : String) : String :=
  (((s.toList.dropWhile isJsWsChar).reverse.dropWhile isJsWsChar).reverse).asString

/-- Flag `hasRubric` from the source: `rubricJson.trim().length > 0`. -/
def hasRubric (s : AppState) : Bool := decide (0 < (jsTrim s.rubricJson).length)

/-- Post-processing applied to every successful webhook result:
`typeof result === 'string' ? extractIframeContent(result) : result`. -/
def processResult (v : Json) : Json :=
  match v with
  | .str t => .str (extractIframeContent t)
  | v => v

/-- Handler `handleRubricImport` from the source, as a function of the selected
file (`none` when the change event carries no file).  Returns the new state
and the (always empty) list of webhook requests issued. -/
def handleRubricImport (file? : Option FileData) (s : AppState) :
    AppState × List WebhookCall :=
  match file? with
  | none => (s, [])
  | some f =>
      let parsed := parseJsonSafely f.content
      if truthy parsed then
        ({ s with
            rubricJson := (jsonStringifyOpt parsed).getD ""
            rubricSource := some .importada
            rubricError := none }, [])
      else
        ({ s with
            rubricError := some ⟨"El archivo no contiene un JSON válido.", none⟩ },
          [])

/-- The state immediately after `handleGenerateRubric` passes validation
and issues its request: busy flag raised, previous error cleared. -/
def generateRubricStart (s : AppState) : AppState :=
  { s with isGeneratingRubric := true, rubricError := none }

/-- Handler `handleGenerateRubric` from the source.  `net` is the outcome of the
single `fetch` the handler would perform. -/
def handleGenerateRubric (env : Env) (net : FetchOutcome) (s : AppState) :
    AppState × List WebhookCall :=
  match s.rubricPdf with
  | none =>
      ({ s with rubricError := some ⟨"Selecciona un archivo PDF antes de generar la rúbrica.", none⟩ }, [])
  | some pdf =>
      if env.rubricWebhookUrl = "" then
        ({ s with rubricError := some ⟨"Configura la variable VITE_RUBRIC_WEBHOOK_URL en tu archivo .env.", none⟩ }, [])
      else
        let s₁ := generateRubricStart s
        let call : WebhookCall :=
          { url := env.rubricWebhookUrl, fields := [("pdf", .file pdf)] }
        let s₂ :=
          match sendWebhookRequest net with
          | .ok result =>
              let processed := processResult result
              let printable :=
                match processed with
                | .str t => t
                | v => formatJson v
              { s₁ with rubricJson := printable, rubricSource := some .generada }
          | .error e => { s₁ with rubricError := some e }
        ({ s₂ with isGeneratingRubric := false }, [call])

/-- The state immediately after `handleGradeSubmission` passes validation
and issues its request. -/
def gradeStart (s : AppState) : AppState :=
  { s with isGrading := true, gradingError := none, gradingResponse := none }

/-- Handler `handleGradeSubmission` from the source. -/
def handleGradeSubmission (env : Env) (net : FetchOutcome) (s : AppState) :
    AppState × List WebhookCall :=
  if hasRubric s then
    match s.submissionFile with
    | none =>
        ({ s with gradingError := some ⟨"Selecciona un archivo para corregir.", none⟩ }, [])
    | some file =>
        if env.gradingWebhookUrl = "" then
          ({ s with gradingError := some ⟨"Configura la variable VITE_GRADING_WEBHOOK_URL en tu archivo .env.", none⟩ }, [])
        else
          let s₁ := gradeStart s
          let call : WebhookCall :=
            { url := env.gradingWebhookUrl
              fields := [("rubric", .blob s.rubricJson "rubrica.json" "application/json"),
                         ("submission", .file file)] }
          let s₂ :=
            match sendWebhookRequest net with
            | .ok result => { s₁ with gradingResponse := some (processResult result) }
            | .error e => { s₁ with gradingError := some e }
          ({ s₂ with isGrading := false }, [call])
  else
    ({ s with gradingError := some ⟨"Necesitas generar o importar una rúbrica JSON antes de corregir.", none⟩ }, [])

/-- The state immediately after `handleUploadToSpreadsheet` passes
validation and issues its request. -/
def uploadStart (s : AppState) : AppState :=
  { s with isUploadingSpreadsheet := true, spreadsheetError := none,
           spreadsheetResponse := none }

/-- Handler `handleUploadToSpreadsheet` from the source. -/
def handleUploadToSpreadsheet (env : Env) (net : FetchOutcome) (s : AppState) :
    AppState × List WebhookCall :=
  if env.spreadsheetWebhookUrl = "" then
    ({ s with spreadsheetError := some ⟨"Configura la variable VITE_SPREADSHEET_WEBHOOK_URL en tu archivo .env.", none⟩ }, [])
  else if jsTrim s.spreadsheetUrl = "" ∨ jsTrim s.spreadsheetSheetName = "" ∨
      jsTrim s.spreadsheetStudentName = "" then
    ({ s with spreadsheetError := some ⟨"Completa la URL de la planilla, el nombre de la hoja y el nombre del alumno antes de enviar.", none⟩ }, [])
  else
    let s₁ := uploadStart s
    let call : WebhookCall :=
      { url := env.spreadsheetWebhookUrl
        fields := [("spreadsheet_url", .text s.spreadsheetUrl),
                   ("sheet_name", .text s.spreadsheetSheetName),
                   ("alumno", .text s.spreadsheetStudentName),
                   ("nota", .text s.spreadsheetGrade),
                   ("resumen_por_criterios", .text s.spreadsheetSummaryByCriteria),
                   ("fortalezas", .text s.spreadsheetStrengths),
                   ("recomendaciones", .text s.spreadsheetRecommendations)] }
    let s₂ :=
      match sendWebhookRequest net with
      | .ok result => { s₁ with spreadsheetResponse := some (processResult result) }
      | .error e => { s₁ with spreadsheetError := some e }
    ({ s₂ with isUploadingSpreadsheet := false }, [call])

/-- Replacing literal `\n` sequences leaves a backslash-free character list
untouched. -/
theorem replaceNl_id_of_no_backslash (l : List Char) (h : '\\' ∉ l) :
    replaceAllList ['\\', 'n'] ['\n'] l = l := by
  unfold replaceAllList
  induction l with
  | nil => rfl
  | cons c cs ih =>
      rw [replaceAllAux]
      have hpre : ¬ ((['\\', 'n'] : List Char) ≠ [] ∧
          List.isPrefixOf ['\\', 'n'] (c :: cs)) := by
        rintro ⟨-, hp⟩
        simp only [List.isPrefixOf, Bool.and_eq_true, beq_iff_eq] at hp
        obtain ⟨h1, -⟩ := hp
        exact h (by rw [h1]; exact List.mem_cons_self c cs)
      rw [if_neg hpre, ih (fun hm => h (List.mem_cons_of_mem c hm))]

/-- C8: `formatJson` returns `JSON.stringify(value, null, 2)` whenever
serialization succeeds, and the empty string when serialization fails on a
non-string value (the only way it can fail); in particular on `{x: 1}` it
returns the two-space-indented rendering.  (In the model, as in
JavaScript, a value whose serialization fails is never a string, so the
return-the-string-unchanged branch is unreachable; `formatJson` is a total
function, hence never raises.) -/
theorem formatJson_spec :
    (∀ v s, jsonStringifyOpt v = some s → formatJson v = s)
    ∧ (∀ v, jsonStringifyOpt v = none → (∀ t, v ≠ Json.str t) → formatJson v = "")
    ∧ formatJson (Json.obj [("x", Json.num 1)]) = "\x7b\n  \"x\": 1\n\x7d" := by
  refine ⟨?_, ?_, rfl⟩
  · intro v s h
    simp [formatJson, h]
  · intro v h hne
    unfold formatJson
    rw [h]
    cases v with
    | str t => exact absurd rfl (hne t)
    | null => rfl
    | bool b => rfl
    | num n => rfl
    | arr xs => rfl
    | obj fs => rfl
    | bigint n => rfl

/-- Witness for C8 at concrete inputs: the `{x: 1}` example, and a value on
which serialization fails. -/
theorem formatJson_spec_witness :
    formatJson (Json.obj [("x", Json.num 1)]) = "\x7b\n  \"x\": 1\n\x7d"
    ∧ formatJson (Json.bigint 7) = "" :=
  ⟨formatJson_spec.2.2,
   formatJson_spec.2.1 (Json.bigint 7) rfl (fun _ h => Json.noConfusion h)⟩

/-- C1 counterexample: the body `"null"` parses as JSON (to the JSON value
`null`), yet `sendWebhookRequest` returns the raw response text rather than
the parsed value, because `parsed ?? responseText` discards a `null`
parse result. -/
theorem sendWebhook_success_null_body_cex :
    jsonParse "null" = some Json.null
    ∧ sendWebhookRequest (.response ⟨200, "OK", "null"⟩) = .ok (Json.str "null")
    ∧ Json.str "null" ≠ Json.null :=
  ⟨rfl, rfl, fun h => Json.noConfusion h⟩

/-- C1 (amended): on a success status, `sendWebhookRequest` returns the
parsed JSON value whenever the body parses to a value other than JSON
`null`, and returns the raw response text unchanged when parsing fails or
yields JSON `null`. -/
theorem sendWebhook_success_parse (r : HttpResponse) (h : respOk r = true) :
    (∀ v, jsonParse r.bodyText = some v → v ≠ Json.null →
      sendWebhookRequest (.response r) = .ok v)
    ∧ (jsonParse r.bodyText = none ∨ jsonParse r.bodyText = some Json.null →
      sendWebhookRequest (.response r) = .ok (.str r.bodyText)) := by
  constructor
  · intro v hv hne
    unfold sendWebhookRequest parseJsonSafely
    simp only [h, if_true]
    rw [hv, Option.getD_some]
    cases v with
    | null => exact absurd rfl hne
    | bool b => rfl
    | num n => rfl
    | str t => rfl
    | arr xs => rfl
    | obj fs => rfl
    | bigint n => rfl
  · intro hv
    unfold sendWebhookRequest parseJsonSafely
    simp only [h, if_true]
    rcases hv with h1 | h1 <;> rw [h1] <;> rfl

/-- Witness for C1 at a concrete success response whose body parses to a
non-null JSON value. -/
theorem sendWebhook_success_parse_witness :
    respOk ⟨200, "OK", "\x7b\"a\":1\x7d"⟩ = true
    ∧ jsonParse "\x7b\"a\":1\x7d" = some (Json.obj [("a", Json.num 1)])
    ∧ sendWebhookRequest (.response ⟨200, "OK", "\x7b\"a\":1\x7d"⟩) =
        .ok (Json.obj [("a", Json.num 1)]) :=
  ⟨rfl, rfl,
   (sendWebhook_success_parse ⟨200, "OK", "\x7b\"a\":1\x7d"⟩ rfl).1 _ rfl
     (fun h => Json.noConfusion h)⟩

/-- C2 counterexample: with status 500 and body `" 0"`, the body parses as
JSON (to `0`, a falsy value), yet `details` is the raw body text `" 0"`,
not the pretty-printed JSON `"0"` — the code tests `if (parsed)`
(truthiness), not parse success. -/
theorem sendWebhook_failure_falsy_details_cex :
    jsonParse " 0" = some (Json.num 0)
    ∧ sendWebhookRequest (.response ⟨500, "x", " 0"⟩) =
        .error ⟨"Error 500: x", some " 0"⟩
    ∧ " 0" ≠ formatJson (Json.num 0) :=
  ⟨rfl, rfl, by decide⟩

/-- C2 (amended): on a non-success status, `sendWebhookRequest` fails with
message `"Error <status>: <statusText>"` (fixed fallback when the status
text is empty) and `details` equal to the two-space pretty-printed JSON of
the body whenever the body parses to a truthy JSON value, and the raw body
text otherwise (parse failure or falsy parse); in particular a status-500
response with body `{"error":"boom"}` yields a message containing `500` and
the pretty-printed details. -/
theorem sendWebhook_failure_spec (r : HttpResponse) (h : respOk r = false) :
    (∀ v, jsonParse r.bodyText = some v → truthy v = true →
      sendWebhookRequest (.response r) =
        .error ⟨"Error " ++ toString r.status ++ ": " ++
            (if r.statusText = "" then "al invocar el webhook" else r.statusText),
          some (formatJson v)⟩)
    ∧ (truthy (parseJsonSafely r.bodyText) = false →
      sendWebhookRequest (.response r) =
        .error ⟨"Error " ++ toString r.status ++ ": " ++
            (if r.statusText = "" then "al invocar el webhook" else r.statusText),
          some r.bodyText⟩)
    ∧ sendWebhookRequest (.response ⟨500, "Internal Server Error", "\x7b\"error\":\"boom\"\x7d"⟩) =
        .error ⟨"Error 500: Internal Server Error", some "\x7b\n  \"error\": \"boom\"\n\x7d"⟩ := by
  refine ⟨?_, ?_, rfl⟩
  · intro v hv ht
    unfold sendWebhookRequest parseJsonSafely
    simp only [h, if_false, Bool.false_eq_true]
    rw [hv, Option.getD_some]
    simp [ht]
  · intro ht
    unfold sendWebhookRequest
    simp only [h, if_false, Bool.false_eq_true]
    simp [ht]

/-- Witness for C2 at concrete failure responses: a truthy JSON body (with
non-empty status text) and a non-JSON body (with empty status text,
exercising the fallback message). -/
theorem sendWebhook_failure_spec_witness :
    respOk ⟨500, "Bad", "\x7b\"a\":1\x7d"⟩ = false
    ∧ sendWebhookRequest (.response ⟨500, "Bad", "\x7b\"a\":1\x7d"⟩) =
        .error ⟨"Error 500: Bad", some "\x7b\n  \"a\": 1\n\x7d"⟩
    ∧ respOk ⟨404, "", "plain"⟩ = false
    ∧ sendWebhookRequest (.response ⟨404, "", "plain"⟩) =
        .error ⟨"Error 404: al invocar el webhook", some "plain"⟩ := by
  refine ⟨rfl, ?_, rfl, ?_⟩
  · exact ((sendWebhook_failure_spec ⟨500, "Bad", "\x7b\"a\":1\x7d"⟩ rfl).1
      (Json.obj [("a", Json.num 1)]) rfl rfl).trans rfl
  · exact ((sendWebhook_failure_spec ⟨404, "", "plain"⟩ rfl).2.1 rfl).trans rfl

/-- C3: when the iframe pattern matches with a non-empty (truthy) capture,
`extractIframeContent` returns the capture transformed by decoding
`&quot;`, `&lt;`, `&gt;`, `&amp;` in that fixed order and then replacing
every literal `\n` two-character sequence with a newline. -/
theorem extractIframe_capture_spec (s : String) (cap : List Char)
    (h : iframeSearch s.toList = some cap) (hne : cap ≠ []) :
    extractIframeContent s =
      (replaceAllList ['\\', 'n'] ['\n']
        (replaceAllList "&amp;".toList ['&']
          (replaceAllList "&gt;".toList ['>']
            (replaceAllList "&lt;".toList ['<']
              (replaceAllList "&quot;".toList ['"'] cap))))).asString := by
  unfold extractIframeContent
  rw [h]
  simp [hne]

/-- Witness for C3 at the spec's example input: the capture is
`{&quot;a&quot;:1}` and the extractor returns `{"a":1}`. -/
theorem extractIframe_capture_spec_witness :
    iframeSearch ("<iframe srcdoc=\"\x7b&quot;a&quot;:1\x7d\"></iframe>".toList) =
      some ("\x7b&quot;a&quot;:1\x7d".toList)
    ∧ extractIframeContent "<iframe srcdoc=\"\x7b&quot;a&quot;:1\x7d\"></iframe>" =
      "\x7b\"a\":1\x7d" := by
  refine ⟨rfl, ?_⟩
  rw [extractIframe_capture_spec "<iframe srcdoc=\"\x7b&quot;a&quot;:1\x7d\"></iframe>"
    ("\x7b&quot;a&quot;:1\x7d".toList) rfl (by decide)]
  rfl

/-- C4: when the iframe pattern does not match, `extractIframeContent`
returns the input with every literal `\n` sequence replaced by a newline;
the second conjunct supports "no other character altered": the replacement
is the identity on any backslash-free character list.  The function is
total, so it never raises. -/
theorem extractIframe_noMatch_spec (s : String) (h : iframeSearch s.toList = none) :
    extractIframeContent s = (replaceAllList ['\\', 'n'] ['\n'] s.toList).asString
    ∧ ∀ l : List Char, '\\' ∉ l → replaceAllList ['\\', 'n'] ['\n'] l = l := by
  refine ⟨?_, fun l hl => replaceNl_id_of_no_backslash l hl⟩
  unfold extractIframeContent
  rw [h]

/-- Witness for C4 at a concrete input with no iframe match and one literal
`\n` sequence. -/
theorem extractIframe_noMatch_spec_witness :
    iframeSearch ("line1\\nline2".toList) = none
    ∧ extractIframeContent "line1\\nline2" = "line1\nline2" := by
  refine ⟨rfl, ?_⟩
  rw [(extractIframe_noMatch_spec "line1\\nline2" rfl).1]
  rfl

/-- C5 counterexample: a file whose text is `"0"` parses as JSON, yet
the import handler stores the fixed validation error and leaves the
rubric text and provenance untouched — `if (!parsed)` rejects falsy
parse results, not only parse failures. -/
theorem rubricImport_falsy_json_cex :
    (jsonParse "0").isSome = true
    ∧ (handleRubricImport (some ⟨"rubrica.json", "0"⟩) initialState).1.rubricError =
        some ⟨"El archivo no contiene un JSON válido.", none⟩
    ∧ (handleRubricImport (some ⟨"rubrica.json", "0"⟩) initialState).1.rubricJson = ""
    ∧ (handleRubricImport (some ⟨"rubrica.json", "0"⟩) initialState).1.rubricSource = none :=
  ⟨rfl, rfl, rfl, rfl⟩

/-- C5 (amended): the import action requires the file's text to parse to a
truthy JSON value.  When it does, the rubric text becomes the two-space
pretty-printed form of the parsed value, the provenance becomes "imported"
and the previous rubric error is cleared; when parsing fails or yields a
falsy value (`null`, `false`, `0`, `""`), the fixed validation error is
stored instead.  In both cases no webhook is contacted. -/
theorem rubricImport_spec (f : FileData) (s : AppState) :
    (truthy (parseJsonSafely f.content) = true →
      (handleRubricImport (some f) s).1.rubricJson =
        (jsonStringifyOpt (parseJsonSafely f.content)).getD ""
      ∧ (handleRubricImport (some f) s).1.rubricSource = some .importada
      ∧ (handleRubricImport (some f) s).1.rubricError = none
      ∧ (handleRubricImport (some f) s).2 = [])
    ∧ (truthy (parseJsonSafely f.content) = false →
      (handleRubricImport (some f) s).1.rubricError =
        some ⟨"El archivo no contiene un JSON válido.", none⟩
      ∧ (handleRubricImport (some f) s).1.rubricJson = s.rubricJson
      ∧ (handleRubricImport (some f) s).1.rubricSource = s.rubricSource
      ∧ (handleRubricImport (some f) s).2 = []) := by
  constructor <;> intro h <;> simp [handleRubricImport, h]

/-- Witness for C5 at a concrete truthy JSON file. -/
theorem rubricImport_spec_witness :
    truthy (parseJsonSafely "\x7b\"x\":1\x7d") = true
    ∧ (handleRubricImport (some ⟨"r.json", "\x7b\"x\":1\x7d"⟩) initialState).1.rubricJson =
        "\x7b\n  \"x\": 1\n\x7d"
    ∧ (handleRubricImport (some ⟨"r.json", "\x7b\"x\":1\x7d"⟩) initialState).1.rubricSource =
        some .importada
    ∧ (handleRubricImport (some ⟨"r.json", "\x7b\"x\":1\x7d"⟩) initialState).1.rubricError = none
    ∧ (handleRubricImport (some ⟨"r.json", "\x7b\"x\":1\x7d"⟩) initialState).2 = [] := by
  have h := (rubricImport_spec ⟨"r.json", "\x7b\"x\":1\x7d"⟩ initialState).1 rfl
  exact ⟨rfl, h.1.trans rfl, h.2.1, h.2.2.1, h.2.2.2⟩

/-- C6: each of the three workflow actions fails fast into a stored
validation error — issuing no network request — when a required input is
missing: the grading action without a rubric (regardless of the selected
submission file) or without a file or without a configured URL; the
generate action without a PDF or without a configured URL; the upload
action without a configured URL or with a required text field blank. -/
theorem validation_failfast_spec (env : Env) (net : FetchOutcome) (s : AppState) :
    (hasRubric s = false →
      (handleGradeSubmission env net s).1.gradingError =
        some ⟨"Necesitas generar o importar una rúbrica JSON antes de corregir.", none⟩
      ∧ (handleGradeSubmission env net s).2 = [])
    ∧ (hasRubric s = true → s.submissionFile = none →
      (handleGradeSubmission env net s).1.gradingError =
        some ⟨"Selecciona un archivo para corregir.", none⟩
      ∧ (handleGradeSubmission env net s).2 = [])
    ∧ (hasRubric s = true → s.submissionFile ≠ none → env.gradingWebhookUrl = "" →
      (handleGradeSubmission env net s).1.gradingError =
        some ⟨"Configura la variable VITE_GRADING_WEBHOOK_URL en tu archivo .env.", none⟩
      ∧ (handleGradeSubmission env net s).2 = [])
    ∧ (s.rubricPdf = none →
      (handleGenerateRubric env net s).1.rubricError =
        some ⟨"Selecciona un archivo PDF antes de generar la rúbrica.", none⟩
      ∧ (handleGenerateRubric env net s).2 = [])
    ∧ (s.rubricPdf ≠ none → env.rubricWebhookUrl = "" →
      (handleGenerateRubric env net s).1.rubricError =
        some ⟨"Configura la variable VITE_RUBRIC_WEBHOOK_URL en tu archivo .env.", none⟩
      ∧ (handleGenerateRubric env net s).2 = [])
    ∧ (env.spreadsheetWebhookUrl = "" →
      (handleUploadToSpreadsheet env net s).1.spreadsheetError =
        some ⟨"Configura la variable VITE_SPREADSHEET_WEBHOOK_URL en tu archivo .env.", none⟩
      ∧ (handleUploadToSpreadsheet env net s).2 = [])
    ∧ (env.spreadsheetWebhookUrl ≠ "" →
      (jsTrim s.spreadsheetUrl = "" ∨ jsTrim s.spreadsheetSheetName = "" ∨
        jsTrim s.spreadsheetStudentName = "") →
      (handleUploadToSpreadsheet env net s).1.spreadsheetError =
        some ⟨"Completa la URL de la planilla, el nombre de la hoja y el nombre del alumno antes de enviar.", none⟩
      ∧ (handleUploadToSpreadsheet env net s).2 = []) := by
  refine ⟨?_, ?_, ?_, ?_, ?_, ?_, ?_⟩
  · intro h
    simp [handleGradeSubmission, h]
  · intro h hf
    simp [handleGradeSubmission, h, hf]
  · intro h hf hu
    obtain ⟨f, hf'⟩ := Option.ne_none_iff_exists'.mp hf
    simp [handleGradeSubmission, h, hf', hu]
  · intro h
    simp [handleGenerateRubric, h]
  · intro h hu
    obtain ⟨f, hf'⟩ := Option.ne_none_iff_exists'.mp h
    simp [handleGenerateRubric, hf', hu]
  · intro h
    simp [handleUploadToSpreadsheet, h]
  · intro h hblank
    simp [handleUploadToSpreadsheet, h, hblank]

/-- Witness for C6: with no rubric, no PDF, unconfigured URLs and a
submission file selected, each handler stores its validation error and
issues no request. -/
theorem validation_failfast_spec_witness :
    (handleGradeSubmission ⟨"", "", ""⟩ (.networkError "down")
        { initialState with submissionFile := some ⟨"tp.py", "print(1)"⟩ }).1.gradingError =
      some ⟨"Necesitas generar o importar una rúbrica JSON antes de corregir.", none⟩
    ∧ (handleGradeSubmission ⟨"", "", ""⟩ (.networkError "down")
        { initialState with submissionFile := some ⟨"tp.py", "print(1)"⟩ }).2 = []
    ∧ (handleGenerateRubric ⟨"", "", ""⟩ (.networkError "down")
        { initialState with submissionFile := some ⟨"tp.py", "print(1)"⟩ }).1.rubricError =
      some ⟨"Selecciona un archivo PDF antes de generar la rúbrica.", none⟩
    ∧ (handleGenerateRubric ⟨"", "", ""⟩ (.networkError "down")
        { initialState with submissionFile := some ⟨"tp.py", "print(1)"⟩ }).2 = []
    ∧ (handleUploadToSpreadsheet ⟨"", "", ""⟩ (.networkError "down")
        { initialState with submissionFile := some ⟨"tp.py", "print(1)"⟩ }).1.spreadsheetError =
      some ⟨"Configura la variable VITE_SPREADSHEET_WEBHOOK_URL en tu archivo .env.", none⟩
    ∧ (handleUploadToSpreadsheet ⟨"", "", ""⟩ (.networkError "down")
        { initialState with submissionFile := some ⟨"tp.py", "print(1)"⟩ }).2 = [] := by
  have h := validation_failfast_spec ⟨"", "", ""⟩ (.networkError "down")
    { initialState with submissionFile := some ⟨"tp.py", "print(1)"⟩ }
  exact ⟨(h.1 rfl).1, (h.1 rfl).2, (h.2.2.2.1 rfl).1, (h.2.2.2.1 rfl).2,
    (h.2.2.2.2.2.1 rfl).1, (h.2.2.2.2.2.1 rfl).2⟩

/-- C7: with a PDF selected and a rubric URL configured, a status-200
response with body `{"rubric_id":"r1"}` makes the generate action set the
rubric text to the pretty-printed object, the provenance to "generated"
(`generada`), leave no rubric error, transition the busy flag true (while
in flight) and back to false, and issue exactly the one request carrying
the PDF. -/
theorem generateRubric_success_scenario (env : Env) (s : AppState) (f : FileData)
    (st : String) (hpdf : s.rubricPdf = some f) (hurl : env.rubricWebhookUrl ≠ "") :
    (handleGenerateRubric env
        (.response ⟨200, st, "\x7b\"rubric_id\":\"r1\"\x7d"⟩) s).1.rubricJson =
      "\x7b\n  \"rubric_id\": \"r1\"\n\x7d"
    ∧ (handleGenerateRubric env
        (.response ⟨200, st, "\x7b\"rubric_id\":\"r1\"\x7d"⟩) s).1.rubricSource =
      some RubricSource.generada
    ∧ (handleGenerateRubric env
        (.response ⟨200, st, "\x7b\"rubric_id\":\"r1\"\x7d"⟩) s).1.rubricError = none
    ∧ (generateRubricStart s).isGeneratingRubric = true
    ∧ (handleGenerateRubric env
        (.response ⟨200, st, "\x7b\"rubric_id\":\"r1\"\x7d"⟩) s).1.isGeneratingRubric = false
    ∧ (handleGenerateRubric env
        (.response ⟨200, st, "\x7b\"rubric_id\":\"r1\"\x7d"⟩) s).2 =
      [⟨env.rubricWebhookUrl, [("pdf", FormValue.file f)]⟩] := by
  unfold handleGenerateRubric
  rw [hpdf]
  simp only [if_neg hurl]
  and_intros <;> first | rfl | trivial

/-- Witness for C7 at a concrete state, environment and response. -/
theorem generateRubric_success_scenario_witness :
    ({ initialState with rubricPdf := some ⟨"parcial.pdf", "%PDF"⟩ } : AppState).rubricPdf =
      some ⟨"parcial.pdf", "%PDF"⟩
    ∧ (handleGenerateRubric ⟨"http://r", "", ""⟩
        (.response ⟨200, "OK", "\x7b\"rubric_id\":\"r1\"\x7d"⟩)
        { initialState with rubricPdf := some ⟨"parcial.pdf", "%PDF"⟩ }).1.rubricJson =
      "\x7b\n  \"rubric_id\": \"r1\"\n\x7d"
    ∧ (handleGenerateRubric ⟨"http://r", "", ""⟩
        (.response ⟨200, "OK", "\x7b\"rubric_id\":\"r1\"\x7d"⟩)
        { initialState with rubricPdf := some ⟨"parcial.pdf", "%PDF"⟩ }).1.rubricSource =
      some RubricSource.generada
    ∧ (handleGenerateRubric ⟨"http://r", "", ""⟩
        (.response ⟨200, "OK", "\x7b\"rubric_id\":\"r1\"\x7d"⟩)
        { initialState with rubricPdf := some ⟨"parcial.pdf", "%PDF"⟩ }).1.rubricError = none
    ∧ (handleGenerateRubric ⟨"http://r", "", ""⟩
        (.response ⟨200, "OK", "\x7b\"rubric_id\":\"r1\"\x7d"⟩)
        { initialState with rubricPdf := some ⟨"parcial.pdf", "%PDF"⟩ }).1.isGeneratingRubric =
      false := by
  have h := generateRubric_success_scenario ⟨"http://r", "", ""⟩
    { initialState with rubricPdf := some ⟨"parcial.pdf", "%PDF"⟩ }
    ⟨"parcial.pdf", "%PDF"⟩ "OK" rfl (by decide)
  exact ⟨rfl, h.1, h.2.1, h.2.2.1, h.2.2.2.2.1⟩

/-- C9: each workflow action, on every path (validation failure, success
settlement or error settlement, for any fetch outcome), leaves the
per-action state of the other two actions — busy flags, results (for the
generate action: the rubric text and provenance) and error slots —
unchanged. -/
theorem action_isolation_spec (env : Env) (net : FetchOutcome) (s : AppState) :
    ((handleGenerateRubric env net s).1.isGrading = s.isGrading
      ∧ (handleGenerateRubric env net s).1.gradingResponse = s.gradingResponse
      ∧ (handleGenerateRubric env net s).1.gradingError = s.gradingError
      ∧ (handleGenerateRubric env net s).1.isUploadingSpreadsheet = s.isUploadingSpreadsheet
      ∧ (handleGenerateRubric env net s).1.spreadsheetResponse = s.spreadsheetResponse
      ∧ (handleGenerateRubric env net s).1.spreadsheetError = s.spreadsheetError)
    ∧ ((handleGradeSubmission env net s).1.isGeneratingRubric = s.isGeneratingRubric
      ∧ (handleGradeSubmission env net s).1.rubricJson = s.rubricJson
      ∧ (handleGradeSubmission env net s).1.rubricSource = s.rubricSource
      ∧ (handleGradeSubmission env net s).1.rubricError = s.rubricError
      ∧ (handleGradeSubmission env net s).1.isUploadingSpreadsheet = s.isUploadingSpreadsheet
      ∧ (handleGradeSubmission env net s).1.spreadsheetResponse = s.spreadsheetResponse
      ∧ (handleGradeSubmission env net s).1.spreadsheetError = s.spreadsheetError)
    ∧ ((handleUploadToSpreadsheet env net s).1.isGeneratingRubric = s.isGeneratingRubric
      ∧ (handleUploadToSpreadsheet env net s).1.rubricJson = s.rubricJson
      ∧ (handleUploadToSpreadsheet env net s).1.rubricSource = s.rubricSource
      ∧ (handleUploadToSpreadsheet env net s).1.rubricError = s.rubricError
      ∧ (handleUploadToSpreadsheet env net s).1.isGrading = s.isGrading
      ∧ (handleUploadToSpreadsheet env net s).1.gradingResponse = s.gradingResponse
      ∧ (handleUploadToSpreadsheet env net s).1.gradingError = s.gradingError) := by
  refine ⟨?_, ?_, ?_⟩
  · unfold handleGenerateRubric generateRubricStart
    cases s.rubricPdf with
    | none => and_intros <;> first | rfl | trivial
    | some f =>
        by_cases hu : env.rubricWebhookUrl = ""
        · simp only [if_pos hu]
          and_intros <;> first | rfl | trivial
        · simp only [if_neg hu]
          cases sendWebhookRequest net with
          | ok v => and_intros <;> first | rfl | trivial
          | error e => and_intros <;> first | rfl | trivial
  · unfold handleGradeSubmission gradeStart
    by_cases hr : hasRubric s = true
    · simp only [if_pos hr]
      cases s.submissionFile with
      | none => and_intros <;> first | rfl | trivial
      | some f =>
          by_cases hu : env.gradingWebhookUrl = ""
          · simp only [if_pos hu]
            and_intros <;> first | rfl | trivial
          · simp only [if_neg hu]
            cases sendWebhookRequest net with
            | ok v => and_intros <;> first | rfl | trivial
            | error e => and_intros <;> first | rfl | trivial
    · simp only [if_neg hr]
      and_intros <;> first | rfl | trivial
  · unfold handleUploadToSpreadsheet uploadStart
    by_cases hu : env.spreadsheetWebhookUrl = ""
    · simp only [if_pos hu]
      and_intros <;> first | rfl | trivial
    · simp only [if_neg hu]
      by_cases hblank : jsTrim s.spreadsheetUrl = "" ∨ jsTrim s.spreadsheetSheetName = "" ∨
          jsTrim s.spreadsheetStudentName = ""
      · simp only [if_pos hblank]
        and_intros <;> first | rfl | trivial
      · simp only [if_neg hblank]
        cases sendWebhookRequest net with
        | ok v => and_intros <;> first | rfl | trivial
        | error e => and_intros <;> first | rfl | trivial

/-- C10: for every completed invocation starting from an idle action (busy
flag down), the action's busy flag is false at the end, on early-validation
returns as well as on success or error settlements; and whenever a request
is actually issued, the in-flight state has the flag true while the settled
state has it false again. -/
theorem busy_flag_spec (env : Env) (net : FetchOutcome) (s : AppState) :
    (s.isGeneratingRubric = false →
      (handleGenerateRubric env net s).1.isGeneratingRubric = false)
    ∧ ((handleGenerateRubric env net s).2 ≠ [] →
      (generateRubricStart s).isGeneratingRubric = true
      ∧ (handleGenerateRubric env net s).1.isGeneratingRubric = false)
    ∧ (s.isGrading = false →
      (handleGradeSubmission env net s).1.isGrading = false)
    ∧ ((handleGradeSubmission env net s).2 ≠ [] →
      (gradeStart s).isGrading = true
      ∧ (handleGradeSubmission env net s).1.isGrading = false)
    ∧ (s.isUploadingSpreadsheet = false →
      (handleUploadToSpreadsheet env net s).1.isUploadingSpreadsheet = false)
    ∧ ((handleUploadToSpreadsheet env net s).2 ≠ [] →
      (uploadStart s).isUploadingSpreadsheet = true
      ∧ (handleUploadToSpreadsheet env net s).1.isUploadingSpreadsheet = false) := by
  refine ⟨?_, ?_, ?_, ?_, ?_, ?_⟩
  · intro h
    unfold handleGenerateRubric
    cases s.rubricPdf with
    | none => exact h
    | some f =>
        by_cases hu : env.rubricWebhookUrl = ""
        · simp only [if_pos hu]; exact h
        · simp only [if_neg hu] <;> cases sendWebhookRequest net <;> rfl
  · unfold handleGenerateRubric generateRubricStart
    cases s.rubricPdf with
    | none => exact fun hcalls => absurd rfl hcalls
    | some f =>
        by_cases hu : env.rubricWebhookUrl = ""
        · simp only [if_pos hu]
          all_goals exact fun hcalls => absurd rfl hcalls
        · simp only [if_neg hu]
          intro hcalls
          cases sendWebhookRequest net with
          | ok v => and_intros <;> first | rfl | trivial
          | error e => and_intros <;> first | rfl | trivial
  · intro h
    unfold handleGradeSubmission
    by_cases hr : hasRubric s = true
    · simp only [if_pos hr]
      cases s.submissionFile with
      | none => exact h
      | some f =>
          by_cases hu : env.gradingWebhookUrl = ""
          · simp only [if_pos hu]; exact h
          · simp only [if_neg hu] <;> cases sendWebhookRequest net <;> rfl
    · simp only [if_neg hr]; exact h
  · unfold handleGradeSubmission gradeStart
    by_cases hr : hasRubric s = true
    · simp only [if_pos hr]
      cases s.submissionFile with
      | none => exact fun hcalls => absurd rfl hcalls
      | some f =>
          by_cases hu : env.gradingWebhookUrl = ""
          · simp only [if_pos hu]
            all_goals exact fun hcalls => absurd rfl hcalls
          · simp only [if_neg hu]
            intro hcalls
            cases sendWebhookRequest net with
            | ok v => and_intros <;> first | rfl | trivial
            | error e => and_intros <;> first | rfl | trivial
    · simp only [if_neg hr]
      all_goals exact fun hcalls => absurd rfl hcalls
  · intro h
    unfold handleUploadToSpreadsheet
    by_cases hu : env.spreadsheetWebhookUrl = ""
    · simp only [if_pos hu]; exact h
    · simp only [if_neg hu]
      by_cases hblank : jsTrim s.spreadsheetUrl = "" ∨ jsTrim s.spreadsheetSheetName = "" ∨
          jsTrim s.spreadsheetStudentName = ""
      · simp only [if_pos hblank]; exact h
      · simp only [if_neg hblank] <;> cases sendWebhookRequest net <;> rfl
  · unfold handleUploadToSpreadsheet uploadStart
    by_cases hu : env.spreadsheetWebhookUrl = ""
    · simp only [if_pos hu]
      all_goals exact fun hcalls => absurd rfl hcalls
    · simp only [if_neg hu]
      by_cases hblank : jsTrim s.spreadsheetUrl = "" ∨ jsTrim s.spreadsheetSheetName = "" ∨
          jsTrim s.spreadsheetStudentName = ""
      · simp only [if_pos hblank]
        all_goals exact fun hcalls => absurd rfl hcalls
      · simp only [if_neg hblank]
        intro hcalls
        cases sendWebhookRequest net with
        | ok v => and_intros <;> first | rfl | trivial
        | error e => and_intros <;> first | rfl | trivial

/-- Witness for C10: a concrete settled-in-error run of the generate
action (flag true in flight, false at the end) and early-validation runs of
the other two actions from the initial state. -/
theorem busy_flag_spec_witness :
    (handleGenerateRubric ⟨"http://r", "http://g", "http://s"⟩ (.networkError "down")
        { initialState with rubricPdf := some ⟨"a.pdf", "%PDF"⟩ }).2 ≠ []
    ∧ (generateRubricStart
        { initialState with rubricPdf := some ⟨"a.pdf", "%PDF"⟩ }).isGeneratingRubric = true
    ∧ (handleGenerateRubric ⟨"http://r", "http://g", "http://s"⟩ (.networkError "down")
        { initialState with rubricPdf := some ⟨"a.pdf", "%PDF"⟩ }).1.isGeneratingRubric = false
    ∧ (handleGradeSubmission ⟨"http://r", "http://g", "http://s"⟩ (.networkError "down")
        initialState).1.isGrading = false
    ∧ (handleUploadToSpreadsheet ⟨"http://r", "http://g", "http://s"⟩ (.networkError "down")
        initialState).1.isUploadingSpreadsheet = false := by
  have h := busy_flag_spec ⟨"http://r", "http://g", "http://s"⟩ (.networkError "down")
    { initialState with rubricPdf := some ⟨"a.pdf", "%PDF"⟩ }
  have h₂ := busy_flag_spec ⟨"http://r", "http://g", "http://s"⟩ (.networkError "down")
    initialState
  have hc : (handleGenerateRubric ⟨"http://r", "http://g", "http://s"⟩ (.networkError "down")
      { initialState with rubricPdf := some ⟨"a.pdf", "%PDF"⟩ }).2 ≠ [] := by decide
  exact ⟨hc, (h.2.1 hc).1, (h.2.1 hc).2, h₂.2.2.1 rfl, h₂.2.2.2.2.1 rfl⟩
